import Mathlib

/-!
Verification of the IPL data-analysis dashboard (`sports.py`).

The dashboard loads two tabular inputs — a matches table and a ball-by-ball
deliveries table — cleans them (column normalisation, deduplication,
missing-value filling, required-column validation) and serves a menu of
independent views, each of which aggregates a slice of the cleaned data.

Shallow embedding conventions:
* A delivery row and a match row become Lean structures; a table is a list of
  rows.  Numeric cells are `Nat` (they are already filled by the cleaning
  step); the optional `player_dismissed` cell, which the cleaning step leaves
  untouched (only numeric columns of `deliveries` are filled), is
  `Option String` with `none` for a missing value.
* pandas `groupby(key)` with the default `sort=True` lists group keys in
  ascending sorted order.  Python compares strings lexicographically by code
  point; `strLe` below implements exactly that order as a computable relation
  (Mathlib's `String` order instances are extensionally the same order but are
  built on `String.ltb`, which does not reduce in the kernel).
* pandas `Series.sort_values(ascending=False)` with the default
  `kind='quicksort'` argsorts the values ascending and then reverses the
  indexer (`pandas.core.sorting.nargsort`).  numpy's quicksort (introsort) is
  unstable in general: only partitions below its small insertion-sort
  threshold (about 16 elements) keep equal values in input order, so the
  program fixes no particular tie order for larger series.  The model's
  ascending pass is a stable insertion sort; it agrees with numpy exactly on
  series below that threshold — where every concrete evaluation in this file
  takes place — and every universally quantified theorem about a descending
  sort below asserts only the ordering of the values, which every argsort
  implementation produces alike.
* pandas `Series.unique` and the hash-table pass of `value_counts` keep first
  appearance order (`dropDuplicates`); `DataFrame.drop_duplicates` keeps the
  first of each group of duplicate rows.
* Indexing a DataFrame column that does not exist raises `KeyError`; the
  column-presence model at the end of the definitions uses an explicit
  `ComputeResult` to record whether a guarded block was skipped, raised
  `KeyError`, or produced a value.
-/

namespace IPL

/-- One row of the deliveries table (one ball bowled), after cleaning.
Columns are the ones `sports.py` reads: `match_id`, `over`, `batting_team`,
`batsman`, `bowler`, `batsman_runs`, `total_runs`, `player_dismissed`. -/
structure Delivery where
  match_id : Nat
  over : Nat
  batting_team : String
  batsman : String
  bowler : String
  batsman_runs : Nat
  total_runs : Nat
  player_dismissed : Option String
deriving DecidableEq, Repr

/-- One row of the matches table, after cleaning.  Columns are the ones
`sports.py` reads: `id`, `season`, `team1`, `team2`, `winner`,
`toss_decision`, `result`, `win_by_runs`, `win_by_wickets`. -/
structure Match where
  id : Nat
  season : Nat
  team1 : String
  team2 : String
  winner : String
  toss_decision : String
  result : String
  win_by_runs : Nat
  win_by_wickets : Nat
deriving DecidableEq, Repr

/-- Lexicographic code-point comparison of character lists: the order Python
uses to compare `str` values (hence the order behind `sorted(...)` and
`groupby(sort=True)` on string keys). -/
def charListLe : List Char → List Char → Bool
  | [], _ => true
  | _ :: _, [] => false
  | a :: as, b :: bs =>
    if a.toNat < b.toNat then true
    else if b.toNat < a.toNat then false
    else charListLe as bs

/-- Python string order, as a proposition on `String`. -/
def strLe (a b : String) : Prop := charListLe a.data b.data = true

instance : DecidableRel strLe := fun a b => instDecidableEqBool (charListLe a.data b.data) true

/-- Strict version of the Python string order. -/
def strLt (a b : String) : Prop := strLe a b ∧ a ≠ b

theorem charListLe_total : ∀ as bs : List Char, charListLe as bs = true ∨ charListLe bs as = true := by
  intro as
  induction as with
  | nil => intro bs; left; rfl
  | cons a as ih =>
    intro bs
    cases bs with
    | nil => right; rfl
    | cons b bs =>
      by_cases hab : a.toNat < b.toNat
      · left; simp [charListLe, hab]
      · by_cases hba : b.toNat < a.toNat
        · right; simp [charListLe, hba]
        · rcases ih bs with h | h
          · left; simp [charListLe, hab, hba, h]
          · right; simp [charListLe, hab, hba, h]

theorem charListLe_trans : ∀ as bs cs : List Char,
    charListLe as bs = true → charListLe bs cs = true → charListLe as cs = true := by
  intro as
  induction as with
  | nil => intro bs cs _ _; rfl
  | cons a as ih =>
    intro bs cs hab hbc
    cases bs with
    | nil => simp [charListLe] at hab
    | cons b bs =>
      cases cs with
      | nil => simp [charListLe] at hbc
      | cons c cs =>
        simp only [charListLe] at hab hbc ⊢
        split_ifs at hab hbc ⊢ <;>
          first
            | rfl
            | omega
            | (exact ih bs cs hab hbc)

instance : IsTotal String strLe := ⟨fun a b => charListLe_total a.data b.data⟩

instance : IsTrans String strLe := ⟨fun a b c hab hbc => charListLe_trans a.data b.data c.data hab hbc⟩

/-- `DataFrame.drop_duplicates` / `Series.unique` / the hash-table pass of
`value_counts` keep the first of each group of equal entries. -/
def dropDuplicates {α : Type} [DecidableEq α] : List α → List α
  | [] => []
  | x :: xs => x :: (dropDuplicates xs).filter (fun y => decide (y ≠ x))

/-- `sorted(series.unique())` on string data: the distinct values in
ascending Python string order.  `groupby(key, sort=True)` lists its group
keys in the same order. -/
def sortedUnique (l : List String) : List String :=
  List.insertionSort strLe (dropDuplicates l)

/-- Distinct numeric values in ascending order (`groupby` on a numeric key). -/
def sortedUniqueNat (l : List Nat) : List Nat :=
  List.insertionSort (fun a b => a ≤ b) (dropDuplicates l)

/-- `Series.sort_values(ascending=False)` with the default
`kind='quicksort'`: pandas (`pandas.core.sorting.nargsort`) argsorts the
values ascending and reverses the indexer.  The ascending pass here is a
stable insertion sort, which matches numpy's argsort exactly on series
below introsort's insertion-sort threshold (about 16 elements; every
concrete evaluation in this file is far below it).  On larger series numpy's
quicksort is unstable and fixes no tie order, so no general theorem in this
file relies on this model's tie order — only on the value ordering, which
any argsort produces. -/
def sort_values_descending {κ : Type} (s : List (κ × Nat)) : List (κ × Nat) :=
  (List.insertionSort (fun p q => p.2 ≤ q.2) s).reverse

/-- Value-ascending order with name-ascending tie order: the shape of the
series entering the final reversal of `sort_values_descending` when the
input series has strictly name-ascending keys (as a `groupby(sort=True)`
result does). -/
def lexAsc (p q : String × Nat) : Prop := p.2 < q.2 ∨ (p.2 = q.2 ∧ strLt p.1 q.1)

/-- `deliveries.groupby(key)[col].sum()` with the default `sort=True`: one
entry per distinct key, keys in ascending string order, value the sum of
`col` over that key's rows. -/
def groupbySum (key : Delivery → String) (val : Delivery → Nat) (ds : List Delivery) : List (String × Nat) :=
  (sortedUnique (ds.map key)).map
    (fun k => (k, ((ds.filter (fun d => decide (key d = k))).map val).sum))

/-- `groupby` + `sum` over a numeric key (`groupby('match_id')[...].sum()`). -/
def groupbySumNat (key : Delivery → Nat) (val : Delivery → Nat) (ds : List Delivery) : List (Nat × Nat) :=
  (sortedUniqueNat (ds.map key)).map
    (fun k => (k, ((ds.filter (fun d => decide (key d = k))).map val).sum))

/-- `deliveries.groupby("over")["total_runs"].mean()`. -/
def groupbyMean (key : Delivery → Nat) (val : Delivery → Nat) (ds : List Delivery) : List (Nat × ℚ) :=
  (sortedUniqueNat (ds.map key)).map
    (fun k =>
      let rows := ds.filter (fun d => decide (key d = k))
      (k, ((rows.map val).sum : ℚ) / (rows.length : ℚ)))

/-- `Series.value_counts()`: counts of distinct values, keys first seen in
appearance order, then sorted by `sort_values(ascending=False)`. -/
def value_counts (l : List String) : List (String × Nat) :=
  sort_values_descending
    ((dropDuplicates l).map (fun v => (v, (l.filter (fun w => decide (w = v))).length)))

/-- `Series.mode()`: the most frequent values, in ascending order. -/
def seriesMode (l : List String) : List String :=
  let counts := (dropDuplicates l).map (fun v => (v, (l.filter (fun w => decide (w = v))).length))
  let m := (counts.map Prod.snd).foldr max 0
  List.insertionSort strLe ((counts.filter (fun p => decide (p.2 = m))).map Prod.fst)

/-- `series.mode()[0]`: first entry of the ascending mode list (`""` stands
for the out-of-bounds access on an empty series). -/
def modeHead (l : List String) : String := (seriesMode l).headD ""

/-- Line 70: `top_runs = deliveries.groupby("batsman")["batsman_runs"].sum().sort_values(ascending=False).head(10)`. -/
def top_runs (deliveries : List Delivery) : List (String × Nat) :=
  (sort_values_descending (groupbySum Delivery.batsman Delivery.batsman_runs deliveries)).take 10

/-- Line 79: `top_teams = df["winner"].value_counts().head(10)`. -/
def top_teams (df : List Match) : List (String × Nat) :=
  (value_counts (df.map Match.winner)).take 10

/-- Lines 102-111: average runs per over (the `over` / `total_runs` columns
are present in the typed tables, so the guard of line 102 holds). -/
def avg_runs_over (deliveries : List Delivery) : List (Nat × ℚ) :=
  groupbyMean Delivery.over Delivery.total_runs deliveries

/-- Line 120: `player_list = sorted(deliveries['batsman'].unique())`. -/
def player_list (deliveries : List Delivery) : List String :=
  sortedUnique (deliveries.map Delivery.batsman)

/-- Output of the Player Statistics section. -/
structure PlayerStats where
  total_runs : Nat
  balls_faced : Nat
  outs : Nat
  average : ℚ
  strike_rate : ℚ
deriving DecidableEq, Repr

/-- Lines 122-127 (Player Statistics): filter the selected batsman's rows,
then total runs, balls faced, dismissal count, average and strike rate. -/
def playerStatistics (deliveries : List Delivery) (selected_player : String) : PlayerStats :=
  let player_data := deliveries.filter (fun d => decide (d.batsman = selected_player))
  let total_runs := (player_data.map Delivery.batsman_runs).sum
  let balls_faced := player_data.length
  let outs := (player_data.filter (fun d => decide (d.player_dismissed = some selected_player))).length
  { total_runs := total_runs
    balls_faced := balls_faced
    outs := outs
    average := if 0 < outs then (total_runs : ℚ) / (outs : ℚ) else (total_runs : ℚ)
    strike_rate := if 0 < balls_faced then ((total_runs : ℚ) / (balls_faced : ℚ)) * 100 else 0 }

/-- Lines 153-157: the opponent of the winner of a match row. -/
def get_opponent (row : Match) : String :=
  if row.winner = row.team1 then row.team2 else row.team1

/-- Output of the Team Analysis section. -/
structure TeamStats where
  total_matches : Nat
  total_wins : Nat
  win_pct : ℚ
  h2h_counts : List (String × Nat)
deriving DecidableEq, Repr

/-- Lines 138-161 (Team Analysis): matches played, wins, win percentage and
head-to-head win counts.  The uploaded matches table has no `loser` column,
so the code takes the `get_opponent` branch: it copies the winner-filtered
frame (`.copy()`), adds an opponent column to the copy, and counts values —
the original `df` is untouched. -/
def teamAnalysis (df : List Match) (selected_team : String) : TeamStats :=
  let matches_played := df.filter (fun m => decide (m.team1 = selected_team) || decide (m.team2 = selected_team))
  let total_matches := matches_played.length
  let total_wins := (df.filter (fun m => decide (m.winner = selected_team))).length
  let win_pct := if 0 < total_matches then ((total_wins : ℚ) / (total_matches : ℚ)) * 100 else 0
  let h2h := df.filter (fun m => decide (m.winner = selected_team))
  { total_matches := total_matches
    total_wins := total_wins
    win_pct := win_pct
    h2h_counts := value_counts (h2h.map get_opponent) }

/-- Output of the Season-wise Trends section (typed tables: every guarded
column exists, so every branch of lines 166-179 runs). -/
structure SeasonStats where
  total_matches : Nat
  top_team : String
  top_batsman : Option (String × Nat)
deriving DecidableEq, Repr

/-- Lines 169-179 (Season-wise Trends): restrict the matches to the selected
season, count them, take the modal winner, and find the top run scorer among
the deliveries of that season's matches. -/
def seasonTrends (df : List Match) (deliveries : List Delivery) (selected_season : Nat) : SeasonStats :=
  let season_df := df.filter (fun m => decide (m.season = selected_season))
  let match_ids := dropDuplicates (season_df.map Match.id)
  let season_deliveries := deliveries.filter (fun d => decide (d.match_id ∈ match_ids))
  let top_batsman := (sort_values_descending (groupbySum Delivery.batsman Delivery.batsman_runs season_deliveries)).take 1
  { total_matches := season_df.length
    top_team := modeHead (season_df.map Match.winner)
    top_batsman := top_batsman.head? }

/-- Output of the Bowler Analysis section. -/
structure BowlerStats where
  wickets : Nat
  balls : Nat
  runs : Nat
  overs : ℚ
  economy : ℚ
  best : Option Nat
deriving DecidableEq, Repr

/-- Lines 187-198 (Bowler Analysis): filter the selected bowler's rows, then
wickets (non-empty `player_dismissed`), balls, runs conceded, fractional
overs `balls // 6 + (balls % 6) / 6`, economy, and best single-match wicket
haul (`.max()` of the per-match wicket counts, `none` on an empty frame). -/
def bowlerAnalysis (deliveries : List Delivery) (selected_bowler : String) : BowlerStats :=
  let bowler_data := deliveries.filter (fun d => decide (d.bowler = selected_bowler))
  let wickets := (bowler_data.filter (fun d => d.player_dismissed.isSome)).length
  let balls := bowler_data.length
  let runs := (bowler_data.map Delivery.total_runs).sum
  let overs : ℚ := ((balls / 6 : Nat) : ℚ) + ((balls % 6 : Nat) : ℚ) / 6
  let economy := if 0 < overs then (runs : ℚ) / overs else 0
  let per_match := (sortedUniqueNat (bowler_data.map Delivery.match_id)).map
    (fun i => ((bowler_data.filter (fun d => decide (d.match_id = i))).filter
      (fun d => d.player_dismissed.isSome)).length)
  { wickets := wickets
    balls := balls
    runs := runs
    overs := overs
    economy := economy
    best := per_match.max? }

/-- Output of the Match Outcome Insights section. -/
structure OutcomeStats where
  win_by_runs : Nat
  win_by_wickets : Nat
  ties : Nat
  no_result : Nat
deriving DecidableEq, Repr

/-- Lines 202-205 (Match Outcome Insights); the typed matches table carries
all four columns, so each conditional count is computed.  `result` values are
compared lowercased in the source; the typed `result` field stores the cell
text as uploaded. -/
def matchOutcomes (df : List Match) : OutcomeStats :=
  { win_by_runs := (df.filter (fun m => decide (0 < m.win_by_runs))).length
    win_by_wickets := (df.filter (fun m => decide (0 < m.win_by_wickets))).length
    ties := (df.filter (fun m => decide (m.result = "tie"))).length
    no_result := (df.filter (fun m => decide (m.result = "no result"))).length }

/-- Lines 218-227 (Interactive Visualizations): restrict deliveries to the
selected team (and season when one is chosen), and sum `total_runs` per
match; `none` models the `No data for selected filters` message of the empty
case. -/
def interactiveViz (df : List Match) (deliveries : List Delivery) (team : String) (season : Option Nat) : Option (List (Nat × Nat)) :=
  let team_deliveries :=
    match season with
    | some s =>
      let match_ids := dropDuplicates
        ((df.filter (fun m => decide (m.season = s) && (decide (m.team1 = team) || decide (m.team2 = team)))).map Match.id)
      deliveries.filter (fun d => decide (d.match_id ∈ match_ids) && decide (d.batting_team = team))
    | none => deliveries.filter (fun d => decide (d.batting_team = team))
  if team_deliveries.isEmpty then none
  else some (groupbySumNat Delivery.match_id Delivery.total_runs team_deliveries)

/-- The two cleaned in-memory tables held for the session (`df` and
`deliveries` after lines 27-36). -/
structure AppState where
  df : List Match
  deliveries : List Delivery
deriving DecidableEq, Repr

/-- The user-selected filter values the sections read (selectbox widgets). -/
structure Inputs where
  selected_player : String
  selected_team : String
  selected_season : Nat
  selected_bowler : String
  viz_team : String
  viz_season : Option Nat
deriving DecidableEq, Repr

/-- The radio-button menu of lines 53-66. -/
inductive AppSection where
  | dashboardOverview
  | playerStatistics
  | teamAnalysis
  | seasonTrends
  | bowlerAnalysis
  | matchOutcome
  | interactiveViz
  | downloadableReports
  | advancedAnalytics
deriving DecidableEq, Repr

/-- CSV cell for a match row, mirroring `df.to_csv(index=False)` over the
typed columns. -/
def matchCsvRow (m : Match) : String :=
  toString m.id ++ "," ++ toString m.season ++ "," ++ m.team1 ++ "," ++ m.team2 ++ ","
    ++ m.winner ++ "," ++ m.toss_decision ++ "," ++ m.result ++ ","
    ++ toString m.win_by_runs ++ "," ++ toString m.win_by_wickets

/-- `df.to_csv(index=False)`: header line then one line per row. -/
def matchesToCsv (df : List Match) : String :=
  String.intercalate "\n"
    ("id,season,team1,team2,winner,toss_decision,result,win_by_runs,win_by_wickets"
      :: df.map matchCsvRow)

/-- CSV cell for a delivery row (missing `player_dismissed` serializes as the
empty cell). -/
def deliveryCsvRow (d : Delivery) : String :=
  toString d.match_id ++ "," ++ toString d.over ++ "," ++ d.batting_team ++ ","
    ++ d.batsman ++ "," ++ d.bowler ++ "," ++ toString d.batsman_runs ++ ","
    ++ toString d.total_runs ++ "," ++ (d.player_dismissed.getD "")

/-- `deliveries.to_csv(index=False)`: header line then one line per row. -/
def deliveriesToCsv (deliveries : List Delivery) : String :=
  String.intercalate "\n"
    ("match_id,over,batting_team,batsman,bowler,batsman_runs,total_runs,player_dismissed"
      :: deliveries.map deliveryCsvRow)

/-- What a section run renders (charts and labels aside): the aggregates it
computes. -/
inductive SectionOutput where
  | overview : List (String × Nat) → List (String × Nat) → List (Nat × ℚ) → Nat → String → SectionOutput
  | player : PlayerStats → SectionOutput
  | team : TeamStats → SectionOutput
  | season : SeasonStats → SectionOutput
  | bowler : BowlerStats → SectionOutput
  | outcome : OutcomeStats → SectionOutput
  | interactive : Option (List (Nat × Nat)) → SectionOutput
  | downloads : String → String → SectionOutput
  | advanced : SectionOutput
deriving DecidableEq, Repr

/-- One user interaction after the cleaning step: dispatch on the selected
section (lines 68-237) and recompute that section's aggregates from the two
cleaned tables.  Every section only reads `s`; the state is returned as it
came in. -/
def runSection (sec : AppSection) (s : AppState) (inp : Inputs) : AppState × SectionOutput :=
  match sec with
  | .dashboardOverview =>
    (s, .overview (top_runs s.deliveries) (top_teams s.df) (avg_runs_over s.deliveries)
      s.df.length (modeHead (s.df.map Match.winner)))
  | .playerStatistics => (s, .player (playerStatistics s.deliveries inp.selected_player))
  | .teamAnalysis => (s, .team (teamAnalysis s.df inp.selected_team))
  | .seasonTrends => (s, .season (seasonTrends s.df s.deliveries inp.selected_season))
  | .bowlerAnalysis => (s, .bowler (bowlerAnalysis s.deliveries inp.selected_bowler))
  | .matchOutcome => (s, .outcome (matchOutcomes s.df))
  | .interactiveViz => (s, .interactive (interactiveViz s.df s.deliveries inp.viz_team inp.viz_season))
  | .downloadableReports => (s, .downloads (matchesToCsv s.df) (deliveriesToCsv s.deliveries))
  | .advancedAnalytics => (s, .advanced)

/-- Line 37: `required_cols = ['batsman', 'batsman_runs']`. -/
def required_cols : List String := ["batsman", "batsman_runs"]

/-- The error surfaced by line 40: the missing required columns and the full
set of available columns. -/
structure ValidationError where
  missing : List String
  available : List String
deriving DecidableEq, Repr

/-- Lines 38-41: `missing = [c for c in required_cols if c not in deliveries.columns]`;
a non-empty `missing` raises the error and stops the script. -/
def checkRequiredCols (deliveryCols : List String) : Option ValidationError :=
  let missing := required_cols.filter (fun c => decide (c ∉ deliveryCols))
  if missing.isEmpty then none else some { missing := missing, available := deliveryCols }

/-- The whole post-upload pipeline: validation gate (lines 37-41, `st.stop()`
on failure) and then the selected section.  `deliveryCols` are the cleaned
deliveries column names (after the strip/lowercase of line 28). -/
def runApp (deliveryCols : List String) (sec : AppSection) (s : AppState) (inp : Inputs) :
    Except ValidationError (AppState × SectionOutput) :=
  match checkRequiredCols deliveryCols with
  | some e => Except.error e
  | none => Except.ok (runSection sec s inp)

/-- Outcome of a guarded optional computation: the guard was false and the
block was skipped, a missing column was indexed (pandas raises `KeyError`),
or a value was produced. -/
inductive ComputeResult (α : Type) where
  | skipped : ComputeResult α
  | keyError : String → ComputeResult α
  | ok : α → ComputeResult α
deriving DecidableEq, Repr

/-- Lines 169, 174-179 as run on tables with the given column sets: the
season's top run scorer.  The guard of line 174 tests `'id' in
season_df.columns and 'batsman' in deliveries.columns`; inside the block,
line 176 indexes `deliveries['match_id']` without any check, which raises
`KeyError` when that column is absent. -/
def seasonTopScorerCompute (matchCols deliveryCols : List String)
    (df : List Match) (deliveries : List Delivery) (selected_season : Nat) :
    ComputeResult (Option (String × Nat)) :=
  if ("id" ∈ matchCols) ∧ ("batsman" ∈ deliveryCols) then
    if "match_id" ∈ deliveryCols then
      ComputeResult.ok (seasonTrends df deliveries selected_season).top_batsman
    else ComputeResult.keyError "match_id"
  else ComputeResult.skipped

/-- A seven-ball, ten-run spell by bowler `Z`: the concrete input of the
spec's worked bowling-economy example. -/
def exampleSpell : List Delivery :=
  [⟨1, 1, "T", "A", "Z", 0, 2, none⟩, ⟨1, 2, "T", "A", "Z", 0, 2, none⟩,
   ⟨1, 3, "T", "A", "Z", 0, 2, none⟩, ⟨1, 4, "T", "A", "Z", 0, 1, none⟩,
   ⟨1, 5, "T", "A", "Z", 0, 1, none⟩, ⟨1, 6, "T", "A", "Z", 0, 1, none⟩,
   ⟨2, 1, "T", "A", "Z", 0, 1, none⟩]

/-- Modelled from the spec's words, for comparison with `top_runs` (claim
C2): group deliveries by batsman in first-appearance order, sum runs-off-bat,
sort descending with ties kept in the grouping's (first-appearance) order,
take the top 10. -/
def top_runs_spec_model (deliveries : List Delivery) : List (String × Nat) :=
  (List.insertionSort (fun p q : String × Nat => q.2 ≤ p.2)
    ((dropDuplicates (deliveries.map Delivery.batsman)).map
      (fun b => (b, ((deliveries.filter (fun d => decide (d.batsman = b))).map Delivery.batsman_runs).sum)))).take 10

theorem mem_dropDuplicates {α : Type} [DecidableEq α] (a : α) :
    ∀ l : List α, a ∈ dropDuplicates l ↔ a ∈ l
  | [] => Iff.rfl
  | x :: xs => by
    simp only [dropDuplicates, List.mem_cons, List.mem_filter]
    constructor
    · rintro (rfl | ⟨h, _⟩)
      · exact Or.inl rfl
      · exact Or.inr ((mem_dropDuplicates a xs).mp h)
    · rintro (rfl | h)
      · exact Or.inl rfl
      · by_cases hax : a = x
        · exact Or.inl hax
        · exact Or.inr ⟨(mem_dropDuplicates a xs).mpr h, by simpa using hax⟩

theorem nodup_dropDuplicates {α : Type} [DecidableEq α] : ∀ l : List α, (dropDuplicates l).Nodup
  | [] => List.nodup_nil
  | x :: xs => by
    simp only [dropDuplicates]
    refine List.Pairwise.cons ?_ ((nodup_dropDuplicates xs).filter _)
    intro a ha
    have h2 := (List.mem_filter.mp ha).2
    simp only [decide_eq_true_eq] at h2
    exact fun h => h2 h.symm

theorem pairwiseAnd {α : Type} {R S : α → α → Prop} :
    ∀ {l : List α}, l.Pairwise R → l.Pairwise S → l.Pairwise fun a b => R a b ∧ S a b
  | [], _, _ => List.Pairwise.nil
  | _ :: _, hr, hs => by
    rcases List.pairwise_cons.mp hr with ⟨hr1, hr2⟩
    rcases List.pairwise_cons.mp hs with ⟨hs1, hs2⟩
    exact List.pairwise_cons.mpr ⟨fun a ha => ⟨hr1 a ha, hs1 a ha⟩, pairwiseAnd hr2 hs2⟩

theorem pairwise_strLt_sortedUnique (l : List String) : (sortedUnique l).Pairwise strLt := by
  have hs : (sortedUnique l).Pairwise strLe := List.sorted_insertionSort strLe (dropDuplicates l)
  have hn : (sortedUnique l).Nodup :=
    (List.perm_insertionSort strLe (dropDuplicates l)).nodup_iff.mpr (nodup_dropDuplicates l)
  exact pairwiseAnd hs hn

theorem nodup_sortedUnique (l : List String) : (sortedUnique l).Nodup :=
  (List.perm_insertionSort strLe (dropDuplicates l)).nodup_iff.mpr (nodup_dropDuplicates l)

theorem mem_sortedUnique {a : String} {l : List String} : a ∈ sortedUnique l ↔ a ∈ l := by
  rw [sortedUnique, (List.perm_insertionSort strLe (dropDuplicates l)).mem_iff]
  exact mem_dropDuplicates a l

theorem lexAsc_val_le {p q : String × Nat} (h : lexAsc p q) : p.2 ≤ q.2 := by
  rcases h with h | ⟨h, _⟩
  · exact Nat.le_of_lt h
  · exact Nat.le_of_eq h

theorem orderedInsert_lexAsc (x : String × Nat) :
    ∀ t : List (String × Nat), t.Pairwise lexAsc → (∀ e ∈ t, strLt x.1 e.1) →
    (List.orderedInsert (fun p q => p.2 ≤ q.2) x t).Pairwise lexAsc := by
  intro t
  induction t with
  | nil => intro _ _; simp [List.orderedInsert]
  | cons b t ih =>
    intro hp hx
    rcases List.pairwise_cons.mp hp with ⟨hb, ht⟩
    simp only [List.orderedInsert]
    by_cases hxb : x.2 ≤ b.2
    · rw [if_pos hxb]
      refine List.pairwise_cons.mpr ⟨?_, hp⟩
      intro e he
      rcases List.mem_cons.mp he with rfl | he2
      · rcases Nat.lt_or_ge x.2 e.2 with h | h
        · exact Or.inl h
        · exact Or.inr ⟨Nat.le_antisymm hxb h, hx e (List.mem_cons_self _ _)⟩
      · have hbe : b.2 ≤ e.2 := lexAsc_val_le (hb e he2)
        rcases Nat.lt_or_ge x.2 e.2 with h | h
        · exact Or.inl h
        · exact Or.inr ⟨Nat.le_antisymm (Nat.le_trans hxb hbe) h,
            hx e (List.mem_cons_of_mem _ he2)⟩
    · rw [if_neg hxb]
      have hbx : b.2 < x.2 := Nat.lt_of_not_le hxb
      refine List.pairwise_cons.mpr ⟨?_, ih ht (fun e he => hx e (List.mem_cons_of_mem _ he))⟩
      intro e he
      rcases (List.mem_orderedInsert _).mp he with rfl | he2
      · exact Or.inl hbx
      · exact hb e he2

theorem insertionSort_lexAsc :
    ∀ l : List (String × Nat), l.Pairwise (fun p q => strLt p.1 q.1) →
    (List.insertionSort (fun p q => p.2 ≤ q.2) l).Pairwise lexAsc := by
  intro l
  induction l with
  | nil => intro _; simp [List.insertionSort]
  | cons x l ih =>
    intro hp
    rcases List.pairwise_cons.mp hp with ⟨hx, hl⟩
    rw [List.insertionSort]
    refine orderedInsert_lexAsc x _ (ih hl) ?_
    intro e he
    exact hx e ((List.perm_insertionSort _ l).mem_iff.mp he)

theorem pairwise_key_strLt_groupbySum (key : Delivery → String) (val : Delivery → Nat)
    (ds : List Delivery) :
    (groupbySum key val ds).Pairwise fun p q => strLt p.1 q.1 := by
  rw [groupbySum, List.pairwise_map]
  exact (pairwise_strLt_sortedUnique (ds.map key)).imp (fun h => h)

theorem sum_map_ite_zero {r : Nat} {x : String} :
    ∀ {ks : List String}, x ∉ ks → (ks.map fun k => if x = k then r else 0).sum = 0 := by
  intro ks
  induction ks with
  | nil => intro _; rfl
  | cons k ks ih =>
    intro h
    have hxk : ¬ x = k := fun hh => h (hh ▸ List.mem_cons_self _ _)
    simp only [List.map_cons, List.sum_cons, if_neg hxk, Nat.zero_add]
    exact ih (fun hh => h (List.mem_cons_of_mem _ hh))

theorem sum_map_ite_single {r : Nat} {x : String} :
    ∀ {ks : List String}, x ∈ ks → ks.Nodup →
    (ks.map fun k => if x = k then r else 0).sum = r := by
  intro ks
  induction ks with
  | nil => intro h _; exact absurd h (List.not_mem_nil x)
  | cons k ks ih =>
    intro hmem hnd
    rcases List.pairwise_cons.mp hnd with ⟨hk, hnd2⟩
    by_cases hxk : x = k
    · have hnot : x ∉ ks := fun hh => (hk x hh) hxk.symm
      simp only [List.map_cons, List.sum_cons, if_pos hxk, sum_map_ite_zero hnot]
      exact Nat.add_zero r
    · rcases List.mem_cons.mp hmem with h | h
      · exact absurd h hxk
      · simp only [List.map_cons, List.sum_cons, if_neg hxk, Nat.zero_add]
        exact ih h hnd2

theorem sum_over_keys (ks : List String) (hnd : ks.Nodup) :
    ∀ ds : List Delivery, (∀ d ∈ ds, d.batsman ∈ ks) →
    (ks.map fun k =>
        ((ds.filter fun d => decide (d.batsman = k)).map Delivery.batsman_runs).sum).sum
      = (ds.map Delivery.batsman_runs).sum := by
  intro ds
  induction ds with
  | nil => intro _; simp
  | cons d rest ih =>
    intro hmem
    have hd : d.batsman ∈ ks := hmem d (List.mem_cons_self _ _)
    have step : (fun k =>
        (((d :: rest).filter fun e => decide (e.batsman = k)).map Delivery.batsman_runs).sum)
        = fun k => (if d.batsman = k then d.batsman_runs else 0)
            + ((rest.filter fun e => decide (e.batsman = k)).map Delivery.batsman_runs).sum := by
      funext k
      by_cases h : d.batsman = k
      · simp [List.filter_cons, h]
      · simp [List.filter_cons, h]
    rw [step, List.sum_map_add, sum_map_ite_single hd hnd,
      ih (fun e he => hmem e (List.mem_cons_of_mem _ he))]
    simp

/-- Claim C1: for every deliveries table and selected batsman, the Player
Statistics average equals total runs divided by dismissals when the count of
that batsman's deliveries whose dismissed-player field equals the batsman is
positive, and equals the total runs otherwise, where total runs is the sum
of runs-off-bat over the batsman's deliveries. -/
theorem claim_c1_player_average (ds : List Delivery) (p : String) :
    (playerStatistics ds p).average =
      if 0 < ((ds.filter fun d => decide (d.batsman = p)).filter
          fun d => decide (d.player_dismissed = some p)).length
      then (((ds.filter fun d => decide (d.batsman = p)).map Delivery.batsman_runs).sum : ℚ)
        / (((ds.filter fun d => decide (d.batsman = p)).filter
            fun d => decide (d.player_dismissed = some p)).length : ℚ)
      else (((ds.filter fun d => decide (d.batsman = p)).map Delivery.batsman_runs).sum : ℚ) :=
  rfl

/-- Claim C2 (counterexample): on the two-delivery table where batsman `A`
appears before batsman `B` and both total 5 runs, the dashboard's
`top_runs` lists `B` before `A` — the reverse of the first-appearance order
the claim asserts (`top_runs_spec_model` is the claim's own prediction:
first-appearance grouping, stable descending sort). -/
theorem claim_c2_counterexample :
    top_runs [⟨1, 0, "T", "A", "X", 5, 5, none⟩, ⟨1, 1, "T", "B", "X", 5, 5, none⟩]
        = [("B", 5), ("A", 5)] ∧
      top_runs_spec_model [⟨1, 0, "T", "A", "X", 5, 5, none⟩, ⟨1, 1, "T", "B", "X", 5, 5, none⟩]
        = [("A", 5), ("B", 5)] ∧
      top_runs [⟨1, 0, "T", "A", "X", 5, 5, none⟩, ⟨1, 1, "T", "B", "X", 5, 5, none⟩]
        ≠ top_runs_spec_model [⟨1, 0, "T", "A", "X", 5, 5, none⟩, ⟨1, 1, "T", "B", "X", 5, 5, none⟩] :=
  ⟨by decide, by decide, by decide⟩

/-- Claim C2 (amended): the top-10 run-scorer list is sorted in descending
order of summed runs-off-bat — every entry's total is at least the next
entry's.  No tie order is asserted: the grouping orders batsmen
alphabetically rather than by first appearance, and the unstable descending
sort leaves the order of equal totals unspecified, so the first-appearance
tie clause of the claim does not hold (see the counterexample). -/
theorem claim_c2_amended_top_runs_descending (ds : List Delivery) :
    (top_runs ds).Pairwise fun a b : String × Nat => b.2 ≤ a.2 := by
  have h1 := pairwise_key_strLt_groupbySum Delivery.batsman Delivery.batsman_runs ds
  have h2 := insertionSort_lexAsc _ h1
  have h2le : (List.insertionSort (fun p q : String × Nat => p.2 ≤ q.2)
      (groupbySum Delivery.batsman Delivery.batsman_runs ds)).Pairwise
      (fun p q : String × Nat => p.2 ≤ q.2) := h2.imp (fun h => lexAsc_val_le h)
  have h3 : ((List.insertionSort (fun p q : String × Nat => p.2 ≤ q.2)
      (groupbySum Delivery.batsman Delivery.batsman_runs ds)).reverse).Pairwise
      (fun a b : String × Nat => b.2 ≤ a.2) := List.pairwise_reverse.mpr h2le
  have h4 := List.Pairwise.sublist (List.take_sublist 10 _) h3
  rw [top_runs, sort_values_descending]
  exact h4

/-- Claim C3: the sum over all batsmen of the per-batsman aggregated
runs-off-bat (the grouping behind the top-scorer view) equals the sum of the
runs-off-bat column over the whole deliveries table. -/
theorem claim_c3_groupby_sum_preserved (ds : List Delivery) :
    ((groupbySum Delivery.batsman Delivery.batsman_runs ds).map Prod.snd).sum
      = (ds.map Delivery.batsman_runs).sum := by
  rw [groupbySum, List.map_map]
  exact sum_over_keys _ (nodup_sortedUnique _) ds
    (fun d hd => mem_sortedUnique.mpr (List.mem_map_of_mem Delivery.batsman hd))

/-- Claim C4: when the cleaned deliveries table lacks `batsman` or
`batsman_runs`, the app halts with a validation error naming exactly the
missing required columns and carrying the full list of available columns,
and no section output is produced; when both are present, processing
continues to the selected section. -/
theorem claim_c4_required_column_validation (cols : List String) (sec : AppSection)
    (s : AppState) (inp : Inputs) :
    (("batsman" ∉ cols ∨ "batsman_runs" ∉ cols) →
      runApp cols sec s inp = Except.error
        { missing := required_cols.filter fun c => decide (c ∉ cols), available := cols }) ∧
    ("batsman" ∈ cols → "batsman_runs" ∈ cols →
      runApp cols sec s inp = Except.ok (runSection sec s inp)) := by
  constructor
  · intro h
    have hne : (required_cols.filter fun c => decide (c ∉ cols)).isEmpty = false := by
      rcases h with h | h <;>
        by_cases h1 : "batsman" ∈ cols <;> by_cases h2 : "batsman_runs" ∈ cols <;>
          simp_all [required_cols, List.filter_cons]
    rw [runApp, checkRequiredCols]
    simp only [hne, Bool.false_eq_true, if_false]
  · intro h1 h2
    rw [runApp, checkRequiredCols]
    simp [required_cols, List.filter_cons, h1, h2]

/-- Claim C4 witness: a concrete upload missing `batsman` is rejected with
exactly that column named, and a concrete upload with both required columns
proceeds to the dashboard. -/
theorem claim_c4_witness :
    ("batsman" ∉ (["batsman_runs", "over"] : List String) ∧
      runApp ["batsman_runs", "over"] AppSection.dashboardOverview ⟨[], []⟩ ⟨"", "", 0, "", "", none⟩
        = Except.error { missing := ["batsman"], available := ["batsman_runs", "over"] }) ∧
    runApp ["batsman", "batsman_runs"] AppSection.dashboardOverview ⟨[], []⟩ ⟨"", "", 0, "", "", none⟩
      = Except.ok (runSection AppSection.dashboardOverview ⟨[], []⟩ ⟨"", "", 0, "", "", none⟩) := by
  refine ⟨⟨by decide, ?_⟩, ?_⟩
  · have h := (claim_c4_required_column_validation ["batsman_runs", "over"]
      AppSection.dashboardOverview ⟨[], []⟩ ⟨"", "", 0, "", "", none⟩).1 (Or.inl (by decide))
    have hm : (required_cols.filter fun c => decide (c ∉ (["batsman_runs", "over"] : List String)))
        = ["batsman"] := by decide
    rw [hm] at h
    exact h
  · exact (claim_c4_required_column_validation ["batsman", "batsman_runs"]
      AppSection.dashboardOverview ⟨[], []⟩ ⟨"", "", 0, "", "", none⟩).2
        (by decide) (by decide)

/-- Claim C5: the Bowler Analysis economy rate equals runs conceded divided
by overs bowled — overs being `balls / 6 + (balls % 6) / 6` over the
bowler's delivery count — and 0 when no overs were bowled; on the 7-ball,
10-run example the overs are `1 + 1/6 = 7/6` and the economy `60/7 ≈ 8.57`. -/
theorem claim_c5_bowler_economy :
    (∀ (ds : List Delivery) (b : String),
      (bowlerAnalysis ds b).economy =
        if 0 < (((ds.filter fun d => decide (d.bowler = b)).length / 6 : Nat) : ℚ)
            + (((ds.filter fun d => decide (d.bowler = b)).length % 6 : Nat) : ℚ) / 6
        then (((ds.filter fun d => decide (d.bowler = b)).map Delivery.total_runs).sum : ℚ)
          / ((((ds.filter fun d => decide (d.bowler = b)).length / 6 : Nat) : ℚ)
            + (((ds.filter fun d => decide (d.bowler = b)).length % 6 : Nat) : ℚ) / 6)
        else 0) ∧
    (bowlerAnalysis exampleSpell "Z").overs = 7 / 6 ∧
    (bowlerAnalysis exampleSpell "Z").economy = 60 / 7 := by
  have hb : (exampleSpell.filter fun d => decide (d.bowler = "Z")).length = 7 := by decide
  have hr : ((exampleSpell.filter fun d => decide (d.bowler = "Z")).map Delivery.total_runs).sum
      = 10 := by decide
  have ho : (bowlerAnalysis exampleSpell "Z").overs
      = (((exampleSpell.filter fun d => decide (d.bowler = "Z")).length / 6 : Nat) : ℚ)
        + (((exampleSpell.filter fun d => decide (d.bowler = "Z")).length % 6 : Nat) : ℚ) / 6 := rfl
  have he : (bowlerAnalysis exampleSpell "Z").economy
      = if 0 < (((exampleSpell.filter fun d => decide (d.bowler = "Z")).length / 6 : Nat) : ℚ)
            + (((exampleSpell.filter fun d => decide (d.bowler = "Z")).length % 6 : Nat) : ℚ) / 6
        then (((exampleSpell.filter fun d => decide (d.bowler = "Z")).map Delivery.total_runs).sum : ℚ)
          / ((((exampleSpell.filter fun d => decide (d.bowler = "Z")).length / 6 : Nat) : ℚ)
            + (((exampleSpell.filter fun d => decide (d.bowler = "Z")).length % 6 : Nat) : ℚ) / 6)
        else 0 := rfl
  refine ⟨fun _ _ => rfl, ?_, ?_⟩
  · rw [ho, hb]
    norm_num
  · rw [he, hb, hr]
    have hpos : (0 : ℚ) < (((7 : Nat) / 6 : Nat) : ℚ) + (((7 : Nat) % 6 : Nat) : ℚ) / 6 := by
      norm_num
    rw [if_pos hpos]
    norm_num

/-- Claim C6: Team Analysis counts matches where the team appears as either
side, wins as rows whose winner equals the team (over the whole table), and
reports wins ÷ matches × 100 as the win percentage, 0 when no matches were
played. -/
theorem claim_c6_team_analysis (df : List Match) (t : String) :
    (teamAnalysis df t).total_matches
        = (df.filter fun m => decide (m.team1 = t) || decide (m.team2 = t)).length ∧
      (teamAnalysis df t).total_wins = (df.filter fun m => decide (m.winner = t)).length ∧
      (teamAnalysis df t).win_pct =
        if 0 < (df.filter fun m => decide (m.team1 = t) || decide (m.team2 = t)).length
        then (((df.filter fun m => decide (m.winner = t)).length : ℚ)
          / ((df.filter fun m => decide (m.team1 = t) || decide (m.team2 = t)).length : ℚ)) * 100
        else 0 :=
  ⟨rfl, rfl, rfl⟩

/-- Claim C7: the Player Statistics strike rate is 0 when the selected
batsman's delivery count is 0, and total runs ÷ balls faced × 100
otherwise. -/
theorem claim_c7_strike_rate (ds : List Delivery) (p : String) :
    (playerStatistics ds p).strike_rate =
      if (ds.filter fun d => decide (d.batsman = p)).length = 0 then 0
      else ((((ds.filter fun d => decide (d.batsman = p)).map Delivery.batsman_runs).sum : ℚ)
        / ((ds.filter fun d => decide (d.batsman = p)).length : ℚ)) * 100 := by
  by_cases h : (ds.filter fun d => decide (d.batsman = p)).length = 0
  · have h0 : ¬ 0 < (ds.filter fun d => decide (d.batsman = p)).length := by omega
    show (if 0 < (ds.filter fun d => decide (d.batsman = p)).length then _ else _) = _
    rw [if_neg h0, if_pos h]
  · have h0 : 0 < (ds.filter fun d => decide (d.batsman = p)).length := Nat.pos_of_ne_zero h
    show (if 0 < (ds.filter fun d => decide (d.batsman = p)).length then _ else _) = _
    rw [if_pos h0, if_neg h]

/-- Claim C8 (code evaluation): with a matches table that has an `id` column
and a deliveries table that has `batsman` and `batsman_runs` but no
`match_id`, the Season-wise Trends top-run-scorer block passes its guard
(line 174 checks only `id` and `batsman`) and then raises `KeyError` on
`deliveries['match_id']` (line 176) instead of being skipped with an
informational message. -/
theorem claim_c8_missing_match_id_key_error :
    seasonTopScorerCompute ["id", "season", "winner"] ["batsman", "batsman_runs"]
        [⟨1, 2019, "T1", "T2", "T1", "bat", "normal", 10, 0⟩]
        [⟨1, 0, "T1", "A", "X", 4, 4, none⟩] 2019
      = ComputeResult.keyError "match_id" := by decide

/-- Claim C9: no section mutates the cleaned in-memory tables — every
section invocation returns the state exactly as it received it — and the
Downloadable Reports section serializes exactly the in-memory tables. -/
theorem claim_c9_views_read_only (sec : AppSection) (s : AppState) (inp : Inputs) :
    (runSection sec s inp).1 = s ∧
      runSection AppSection.downloadableReports s inp
        = (s, SectionOutput.downloads (matchesToCsv s.df) (deliveriesToCsv s.deliveries)) := by
  refine ⟨?_, rfl⟩
  cases sec <;> rfl

/-- Claim C10: every player offered by the Player Statistics selector is a
distinct value of the deliveries `batsman` column, hence has at least one
delivery row, a positive balls-faced count, and a strike rate computed by
the non-zero branch. -/
theorem claim_c10_selected_player_safe (ds : List Delivery) (p : String)
    (hp : p ∈ player_list ds) :
    (∃ d ∈ ds, d.batsman = p) ∧ 1 ≤ (playerStatistics ds p).balls_faced ∧
      (playerStatistics ds p).strike_rate
        = (((playerStatistics ds p).total_runs : ℚ)
          / ((playerStatistics ds p).balls_faced : ℚ)) * 100 := by
  have hmem : p ∈ ds.map Delivery.batsman := mem_sortedUnique.mp hp
  rcases List.mem_map.mp hmem with ⟨d, hd, hdp⟩
  have hfil : d ∈ ds.filter fun e => decide (e.batsman = p) :=
    List.mem_filter.mpr ⟨hd, by simp [hdp]⟩
  have hlen : 0 < (ds.filter fun e => decide (e.batsman = p)).length :=
    List.length_pos.mpr (List.ne_nil_of_mem hfil)
  refine ⟨⟨d, hd, hdp⟩, hlen, ?_⟩
  have hsr : (playerStatistics ds p).strike_rate
      = if 0 < (ds.filter fun e => decide (e.batsman = p)).length
        then ((((ds.filter fun e => decide (e.batsman = p)).map Delivery.batsman_runs).sum : ℚ)
          / ((ds.filter fun e => decide (e.batsman = p)).length : ℚ)) * 100
        else 0 := rfl
  rw [hsr, if_pos hlen]
  rfl

/-- Claim C10 witness: on a one-delivery table, its batsman is selectable
and the conclusions of the safety claim hold. -/
theorem claim_c10_witness :
    "A" ∈ player_list [⟨1, 0, "T", "A", "X", 4, 4, none⟩] ∧
      ((∃ d ∈ ([⟨1, 0, "T", "A", "X", 4, 4, none⟩] : List Delivery), d.batsman = "A") ∧
        1 ≤ (playerStatistics [⟨1, 0, "T", "A", "X", 4, 4, none⟩] "A").balls_faced ∧
        (playerStatistics [⟨1, 0, "T", "A", "X", 4, 4, none⟩] "A").strike_rate
          = (((playerStatistics [⟨1, 0, "T", "A", "X", 4, 4, none⟩] "A").total_runs : ℚ)
            / ((playerStatistics [⟨1, 0, "T", "A", "X", 4, 4, none⟩] "A").balls_faced : ℚ)) * 100) := by
  have h : "A" ∈ player_list [⟨1, 0, "T", "A", "X", 4, 4, none⟩] := by decide
  exact ⟨h, claim_c10_selected_player_safe [⟨1, 0, "T", "A", "X", 4, 4, none⟩] "A" h⟩

end IPL
